import Mathlib

/-!
Verification of the settlement engine of the bet-tracker repository: a
shallow embedding of `referee.settleBet` and of `bet_tracker.py`'s
`find_matching_game` and `settle_bet`, with theorems checking the
specification's claims.

Numeric model: Python numbers occurring in bets and score records are
modelled by the exact decimal values they denote, as rationals.
`decimal.Decimal` arithmetic on such values is exact, so it is plain
rational arithmetic.  A conversion `float(d)` of a Decimal with at most two
fractional digits round-trips through the binary double and back to the
same shortest decimal representation, so it denotes the same value and is
modelled as the identity.  The one place where binary floating point
observably changes a value - `round(float(x), 2)` applied to a
three-decimal amount in the spread branch of `settle_bet`
(bet_tracker.py lines 362-377) - is modelled exactly by `floatRound`
(round to nearest binary64, ties to even) composed with a half-even
decimal rounding, see `pyRound2f`.
-/

/-- Floor of a rational, computed by flooring integer division
(`q.den` is positive, so `Int.fdiv q.num q.den` is the mathematical floor). -/
def ifloor (q : ℚ) : ℤ := Int.fdiv q.num (q.den : ℤ)

/-- Round a rational to the nearest integer, ties to even.  This is both the
rounding step of IEEE-754 binary64 conversion and the rounding used by
Python's built-in `round`. -/
def rndTiesEven (q : ℚ) : ℤ :=
  let f := ifloor q
  if q - (f : ℚ) < 1/2 then f
  else if (1/2 : ℚ) < q - (f : ℚ) then f + 1
  else if f % 2 = 0 then f else f + 1

/-- Multiply a rational by an integer power of two. -/
def mulPow2 (q : ℚ) (e : ℤ) : ℚ :=
  if 0 ≤ e then q * ((2 ^ e.toNat : ℕ) : ℚ) else q / ((2 ^ (-e).toNat : ℕ) : ℚ)

/-- Binary normalisation with fuel: scale a positive rational into `[1, 2)`,
returning the scaled value and the base-two exponent. -/
def fnorm : ℕ → ℚ → ℤ → ℚ × ℤ
  | 0, q, e => (q, e)
  | n + 1, q, e =>
    if q < 1 then fnorm n (q * 2) (e - 1)
    else if 2 ≤ q then fnorm n (q / 2) (e + 1)
    else (q, e)

/-- Value of the IEEE-754 binary64 double nearest to `q` (round to nearest,
ties to even), for `q` in the normal range (the only range exercised here);
models CPython's conversion of an exact numeric value to `float`. -/
def floatRound (q : ℚ) : ℚ :=
  if q = 0 then 0
  else
    let p := fnorm 1200 |q| 0
    let n := rndTiesEven (mulPow2 p.1 52)
    let r := mulPow2 ((n : ℤ) : ℚ) (p.2 - 52)
    if q < 0 then -r else r

/-- Decimal value denoted by the Python expression `round(float(q), 2)`:
convert `q` to the nearest double, then round that double's value
half-to-even at two decimal places (CPython's `round` on floats is
correctly rounded on the decimal expansion of the double). -/
def pyRound2f (q : ℚ) : ℚ := ((rndTiesEven (floatRound q * 100) : ℤ) : ℚ) / 100

/-- `Decimal.quantize(Decimal('0.01'), rounding=ROUND_HALF_UP)`: round to two
decimal places with ties away from zero (referee.py line 177). -/
def roundHalfUp2 (q : ℚ) : ℚ :=
  if q < 0 then -(((ifloor (-q * 100 + 1/2) : ℤ) : ℚ) / 100)
  else ((ifloor (q * 100 + 1/2) : ℤ) : ℚ) / 100

deriving instance DecidableEq for Except

/- Batteries marks the `Rat` field operations irreducible, which blocks
elaborator-side evaluation of concrete rational arithmetic; restore the
default reducibility locally so that `decide` can evaluate the embedded
functions at concrete inputs. -/
attribute [local semireducible] Rat.add Rat.mul Rat.inv Rat.sub

/-! ## Core referee function (`referee.py`, `settleBet`, lines 24-182) -/

/-- The distinct `ValueError` raise sites of `referee.settleBet` that are
reachable when the score arguments are (non-null) numbers. -/
inductive RefErr
  | invalidStake
  | invalidPick
  | invalidBetType
deriving DecidableEq

/-- The dictionary returned by `settleBet`: keys `result` and `final_pl`
(referee.py lines 179-182).  `final_pl` is `float(final_pl_rounded)`, a
two-decimal value that round-trips through the double exactly, so it is
modelled by the exact rounded decimal. -/
structure SettleResult where
  result : String
  final_pl : ℚ
deriving DecidableEq

/-- The 10% juice rule plus final rounding, referee.py lines 164-177. -/
def juicePL (result : String) (stake : ℚ) (no_juice : Bool) : ℚ :=
  roundHalfUp2
    (if result = "W" then stake
     else if result = "L" then (if no_juice then -stake else -(stake * (11/10)))
     else 0)

/-- Shallow embedding of `referee.settleBet` (referee.py lines 24-182) for
non-null numeric scores.  `Decimal(str(x))` conversion of a value denoting
an exact decimal is the identity in this model; the `is None` checks on
lines 68-69 are unreachable for numeric inputs and are omitted. -/
def settleBet (home_team_score away_team_score : ℚ) (bet_type user_pick : String)
    (line stake : ℚ) (no_juice : Bool) : Except RefErr SettleResult :=
  if stake ≤ 0 then .error .invalidStake
  else if bet_type = "spread" then
    -- lines 109-134: line-sign heuristic chooses the backed side
    let adj : ℚ := if line < 0 then home_team_score + line else away_team_score + line
    let opp : ℚ := if line < 0 then away_team_score else home_team_score
    let res : String := if adj > opp then "W" else if adj < opp then "L" else "P"
    .ok ⟨res, juicePL res stake no_juice⟩
  else if bet_type = "totals" then
    -- lines 136-159
    let t := home_team_score + away_team_score
    if ¬(user_pick = "Over" ∨ user_pick = "Under") then .error .invalidPick
    else
      let res : String :=
        if user_pick = "Over" then (if t > line then "W" else if t < line then "L" else "P")
        else (if t < line then "W" else if t > line then "L" else "P")
      .ok ⟨res, juicePL res stake no_juice⟩
  else .error .invalidBetType

/-- The juice rule spelt out per outcome (helper for the claims below). -/
theorem juicePL_spec (res : String) (stake : ℚ) (nj : Bool) :
    (res = "W" → juicePL res stake nj = roundHalfUp2 stake)
    ∧ (res = "L" → juicePL res stake nj =
        roundHalfUp2 (if nj then -stake else -(stake * (11/10))))
    ∧ (res = "P" → juicePL res stake nj = 0) := by
  refine ⟨?_, ?_, ?_⟩ <;> intro h <;> subst h <;> simp [juicePL]
  simp [roundHalfUp2, ifloor]

/-- C2: for every Total (over/under) bet the resolver computes
`total = home_score + away_score` and returns, for selection Over: Win if
`total > line`, Loss if `total < line`, Push if equal; for selection Under:
Win if `total < line`, Loss if `total > line`, Push if equal
(referee.py lines 136-159). -/
theorem C2_totals_rule (h a line stake : ℚ) (nj : Bool) (hs : 0 < stake) :
    (∃ r, settleBet h a "totals" "Over" line stake nj = .ok r ∧
      r.result = (if h + a > line then "W" else if h + a < line then "L" else "P"))
    ∧ (∃ r, settleBet h a "totals" "Under" line stake nj = .ok r ∧
      r.result = (if h + a < line then "W" else if h + a > line then "L" else "P")) := by
  have hns : ¬ stake ≤ 0 := not_le.mpr hs
  refine ⟨⟨⟨if h + a > line then "W" else if h + a < line then "L" else "P",
            juicePL (if h + a > line then "W" else if h + a < line then "L" else "P") stake nj⟩,
          ?_, rfl⟩,
         ⟨⟨if h + a < line then "W" else if h + a > line then "L" else "P",
            juicePL (if h + a < line then "W" else if h + a > line then "L" else "P") stake nj⟩,
          ?_, rfl⟩⟩ <;> simp [settleBet, hns]

/-- Witness for C2 at the spec's concrete example: 28 + 22 = 50 over 48.5. -/
theorem C2_totals_witness :
    (0 : ℚ) < 100 ∧
    ((∃ r, settleBet 28 22 "totals" "Over" (97/2) 100 false = .ok r ∧
      r.result = (if (28 : ℚ) + 22 > 97/2 then "W" else if (28 : ℚ) + 22 < 97/2 then "L" else "P"))
    ∧ (∃ r, settleBet 28 22 "totals" "Under" (97/2) 100 false = .ok r ∧
      r.result = (if (28 : ℚ) + 22 < 97/2 then "W" else if (28 : ℚ) + 22 > 97/2 then "L" else "P"))) :=
  ⟨by norm_num, C2_totals_rule 28 22 (97/2) 100 false (by norm_num)⟩

/-- C10: for spread bets the core `settleBet` never reads `user_pick`; the
backed side comes solely from the sign of the line (referee.py
lines 106-134), so any two calls differing only in `user_pick` return the
same result and profit/loss. -/
theorem C10_user_pick_independent (h a : ℚ) (up1 up2 : String) (line stake : ℚ) (nj : Bool) :
    settleBet h a "spread" up1 line stake nj = settleBet h a "spread" up2 line stake nj := rfl

/-- C1 (amended, core part): for every wager the core `settleBet` settles, the
profit/loss is: `+stake` on Win, `-stake` on Loss with `no_juice`,
`-(stake * 1.1)` on Loss otherwise, `0` on Push - each rounded half-up to two
decimal places (referee.py lines 164-177). -/
theorem C1_profit_rule_core (h a : ℚ) (bt up : String) (line stake : ℚ) (nj : Bool)
    (r : SettleResult) (hok : settleBet h a bt up line stake nj = .ok r) :
    (r.result = "W" → r.final_pl = roundHalfUp2 stake)
    ∧ (r.result = "L" → r.final_pl = roundHalfUp2 (if nj then -stake else -(stake * (11/10))))
    ∧ (r.result = "P" → r.final_pl = 0) := by
  simp only [settleBet] at hok
  split_ifs at hok <;>
    (rw [Except.ok.injEq] at hok; subst hok; exact juicePL_spec _ _ _)

/-- Witness for C1: the spec's concrete Loss example, stake 100 with juice. -/
theorem C1_profit_rule_witness :
    settleBet 24 21 "spread" "Home Team" (-7/2) 100 false = .ok ⟨"L", -110⟩
    ∧ (((⟨"L", -110⟩ : SettleResult).result = "W" →
        (⟨"L", -110⟩ : SettleResult).final_pl = roundHalfUp2 100)
      ∧ ((⟨"L", -110⟩ : SettleResult).result = "L" →
        (⟨"L", -110⟩ : SettleResult).final_pl =
          roundHalfUp2 (if false then -(100 : ℚ) else -((100 : ℚ) * (11/10))))
      ∧ ((⟨"L", -110⟩ : SettleResult).result = "P" →
        (⟨"L", -110⟩ : SettleResult).final_pl = 0)) :=
  ⟨by decide, C1_profit_rule_core 24 21 "spread" "Home Team" (-7/2) 100 false ⟨"L", -110⟩ (by decide)⟩

/-! ## String primitives (Python string operations used by bet_tracker.py) -/

/-- Python `str.lower` (ASCII domain). -/
def lowerS (s : String) : String := ⟨s.data.map Char.toLower⟩

/-- Python `str.strip`: drop leading and trailing whitespace. -/
def trimChars (l : List Char) : List Char :=
  ((l.dropWhile Char.isWhitespace).reverse.dropWhile Char.isWhitespace).reverse

/-- Python `str.strip` on strings. -/
def trimS (s : String) : String := ⟨trimChars s.data⟩

/-- `pat` occurs as a contiguous sublist of `l` (Python `pat in l`;
the empty pattern occurs in every string, as in Python). -/
def listContains (l pat : List Char) : Bool :=
  match l with
  | [] => pat.isPrefixOf ([] : List Char)
  | c :: t => pat.isPrefixOf (c :: t) || listContains t pat

/-- Python `pat in s` for strings. -/
def strContains (s pat : String) : Bool := listContains s.data pat.data

/-- Python `str.split()` with no separator: maximal runs of non-whitespace. -/
def wsTokensAux : List Char → List Char → List (List Char)
  | [], acc => if acc.isEmpty then [] else [acc.reverse]
  | c :: t, acc =>
    if c.isWhitespace then
      if acc.isEmpty then wsTokensAux t [] else acc.reverse :: wsTokensAux t []
    else wsTokensAux t (c :: acc)

/-- Python `str.split()` with no separator. -/
def wsTokens (l : List Char) : List (List Char) := wsTokensAux l []

/-- Python `str.split(sep)` for a non-empty separator, with fuel
(`l.length + 1` steps always suffice): split at every non-overlapping
occurrence of `sep`, keeping empty parts, exactly as Python does. -/
def splitSepAux (sep : List Char) : ℕ → List Char → List Char → List (List Char)
  | 0, l, acc => [acc.reverse ++ l]
  | n + 1, l, acc =>
    if sep.isPrefixOf l then acc.reverse :: splitSepAux sep n (l.drop sep.length) []
    else
      match l with
      | [] => [acc.reverse]
      | c :: t => splitSepAux sep n t (c :: acc)

/-- Python `s.split(sep)` on strings. -/
def strSplitSep (s sep : String) : List String :=
  (splitSepAux sep.data (s.data.length + 1) s.data []).map (fun l => ⟨l⟩)

/-! ## Score records and the game matcher
(`bet_tracker.py`, `find_matching_game`, lines 177-236) -/

/-- A score record as consumed by the engine: team labels, the `completed`
flag, and the `scores` list when present - `some (sh, sa)` stands for the
Python list `[{'score': sh}, {'score': sa}]`, where an entry's value may
itself be null (`none`).  Records whose alternative-format keys
(`home_score` / `away_score`) are absent are the only shape this repository
constructs, so only the `scores`-list shape is carried. -/
structure ScoreRec where
  home_team : String
  away_team : String
  completed : Bool
  scores : Option (Option ℚ × Option ℚ)
deriving DecidableEq

/-- `teams_match` (bet_tracker.py lines 213-227): lowercase and strip both
names, then test exact equality, substring containment in either direction,
and intersection of the sets of words longer than three characters. -/
def wordsIntersect (t1 t2 : String) : Bool :=
  let w1 := (wsTokens t1.data).filter (fun w => 3 < w.length)
  let w2 := (wsTokens t2.data).filter (fun w => 3 < w.length)
  !w1.isEmpty && !w2.isEmpty && w1.any (fun w => w2.contains w)

/-- The inner fuzzy name test of the matcher (bet_tracker.py lines 213-227). -/
def teams_match (team1 team2 : String) : Bool :=
  let t1 := trimS (lowerS team1)
  let t2 := trimS (lowerS team2)
  if t1 = t2 then true
  else if strContains t2 t1 || strContains t1 t2 then true
  else if wordsIntersect t1 t2 then true
  else false

/-- The candidate loop of `find_matching_game` (bet_tracker.py
lines 204-236): first completed-or-scored record whose two team labels
fuzzily match the parsed tokens in either pairing. -/
def scanScores (bh ba : String) : List ScoreRec → Option ScoreRec
  | [] => none
  | s :: rest =>
    if s.completed || s.scores.isSome then
      if teams_match bh (trimS s.home_team) && teams_match ba (trimS s.away_team) then some s
      else if teams_match bh (trimS s.away_team) && teams_match ba (trimS s.home_team) then some s
      else scanScores bh ba rest
    else scanScores bh ba rest

/-- The lone exceptional exit of `find_matching_game`: Python raises
`ValueError` when tuple unpacking of a separator split yields a number of
parts other than two. -/
inductive MatchErr
  | valueError
deriving DecidableEq

/-- Shallow embedding of `find_matching_game` (bet_tracker.py
lines 185-236).  `.ok none` is Python `return None` (the `NotFound`
sentinel); `.error .valueError` is the uncaught unpacking error. -/
def find_matching_game (bet_game : String) (scores : List ScoreRec) :
    Except MatchErr (Option ScoreRec) :=
  if strContains bet_game " vs " then
    match strSplitSep bet_game " vs " with
    | [p0, p1] => .ok (scanScores (trimS p0) (trimS p1) scores)
    | _ => .error .valueError
  else if strContains bet_game " @ " then
    match strSplitSep bet_game " @ " with
    | [p0, p1] => .ok (scanScores (trimS p1) (trimS p0) scores)
    | _ => .error .valueError
  else
    match wsTokens bet_game.data with
    | t0 :: t1 :: rest => .ok (scanScores (trimS ⟨List.getLastD rest t1⟩) (trimS ⟨t0⟩) scores)
    | _ => .ok none

/-- Concrete score record used for the C5 counterexample. -/
def c5rec : ScoreRec := ⟨"X", "Y", true, some (some 24, some 20)⟩

/-- C5 counterexample: the claim says the matcher returns NotFound whenever
the parse fails to yield two non-empty tokens; but `"X vs "` splits into
`"X"` and the empty token, and the empty token substring-matches any name,
so the matcher returns the first completed candidate instead of NotFound. -/
theorem C5_parse_cex :
    find_matching_game "X vs " [c5rec] = .ok (some c5rec)
    ∧ (Except.ok (some c5rec) ≠ (.ok none : Except MatchErr (Option ScoreRec))) := by
  constructor
  · decide
  · decide

/-- C5 (amended): when the label contains neither the `" vs "` nor the
`" @ "` separator and has fewer than two whitespace-delimited tokens, the
matcher returns NotFound without scanning (bet_tracker.py lines 185-199). -/
theorem C5_parse_amended (g : String) (scores : List ScoreRec)
    (h1 : strContains g " vs " = false) (h2 : strContains g " @ " = false)
    (h3 : (wsTokens g.data).length < 2) :
    find_matching_game g scores = .ok none := by
  unfold find_matching_game
  simp only [h1, h2, Bool.false_eq_true, if_false]
  cases hw : wsTokens g.data with
  | nil => rfl
  | cons t0 rest =>
    cases rest with
    | nil => rfl
    | cons t1 r => rw [hw] at h3; exfalso; simp at h3; omega

/-- Witness for C5 (amended): a single-token label with no separator. -/
theorem C5_parse_witness :
    strContains "Tulane" " vs " = false
    ∧ strContains "Tulane" " @ " = false
    ∧ (wsTokens "Tulane".data).length < 2
    ∧ find_matching_game "Tulane" [c5rec] = .ok none :=
  ⟨by decide, by decide, by decide,
   C5_parse_amended "Tulane" [c5rec] (by decide) (by decide) (by decide)⟩

/-- The combined per-candidate predicate of the matcher loop: a completed or
scored record whose team labels fuzzily match the parsed tokens in one of
the two pairings. -/
def candPred (bh ba : String) (s : ScoreRec) : Bool :=
  (s.completed || s.scores.isSome)
  && ((teams_match bh (trimS s.home_team) && teams_match ba (trimS s.away_team))
      || (teams_match bh (trimS s.away_team) && teams_match ba (trimS s.home_team)))

/-- The if-chain of `teams_match` equals the spec's three-way disjunction:
case-insensitive equality, or substring containment in either direction, or
intersection of the sets of words longer than three characters. -/
theorem teams_match_eq_fuzzy (x y : String) :
    teams_match x y =
      (decide (trimS (lowerS x) = trimS (lowerS y))
       || (strContains (trimS (lowerS y)) (trimS (lowerS x))
           || strContains (trimS (lowerS x)) (trimS (lowerS y)))
       || wordsIntersect (trimS (lowerS x)) (trimS (lowerS y))) := by
  by_cases h : trimS (lowerS x) = trimS (lowerS y) <;>
    cases hc : (strContains (trimS (lowerS y)) (trimS (lowerS x))
        || strContains (trimS (lowerS x)) (trimS (lowerS y))) <;>
      cases hw : wordsIntersect (trimS (lowerS x)) (trimS (lowerS y)) <;>
        simp [teams_match, h, hc, hw]

/-- The candidate loop is first-fit: it returns the first record in input
order satisfying `candPred`. -/
theorem scan_eq_find (bh ba : String) (l : List ScoreRec) :
    scanScores bh ba l = l.find? (candPred bh ba) := by
  induction l with
  | nil => rfl
  | cons s t ih =>
    simp only [scanScores]
    cases hcomp : (s.completed || s.scores.isSome) <;>
      cases h1 : (teams_match bh (trimS s.home_team) && teams_match ba (trimS s.away_team)) <;>
        cases h2 : (teams_match bh (trimS s.away_team) && teams_match ba (trimS s.home_team)) <;>
          simp [List.find?, candPred, hcomp, h1, h2, ih]

/-- Concrete completed record matched by the spec's example. -/
def c6rec : ScoreRec := ⟨"Ole Miss Rebels", "Tulane Green Wave", true, some (some 41, some 10)⟩

/-- Concrete completed record for an unrelated pairing. -/
def c6other : ScoreRec := ⟨"Georgia Bulldogs", "Texas Longhorns", true, some (some 30, some 21)⟩

/-- C6: the matcher considers only completed/has-score candidates, applies
the symmetric fuzzy name test (case-insensitive equality, substring in
either direction, or intersection of the sets of words longer than three
characters) in both pairings, returns the first candidate in input order
that passes, and on the concrete example `"Tulane vs Ole Miss"` matches
`home_team="Ole Miss Rebels", away_team="Tulane Green Wave"` but not an
unrelated pairing (bet_tracker.py lines 204-236). -/
theorem C6_matcher :
    (∀ x y, teams_match x y =
      (decide (trimS (lowerS x) = trimS (lowerS y))
       || (strContains (trimS (lowerS y)) (trimS (lowerS x))
           || strContains (trimS (lowerS x)) (trimS (lowerS y)))
       || wordsIntersect (trimS (lowerS x)) (trimS (lowerS y))))
    ∧ (∀ bh ba (l : List ScoreRec), scanScores bh ba l = l.find? (candPred bh ba))
    ∧ find_matching_game "Tulane vs Ole Miss" [c6rec] = .ok (some c6rec)
    ∧ find_matching_game "Tulane vs Ole Miss" [c6other] = .ok none :=
  ⟨teams_match_eq_fuzzy, scan_eq_find, by decide, by decide⟩

/-! ## Settlement wrapper (`bet_tracker.py`, `settle_bet`, lines 243-416) -/

/-- A bet dictionary exactly as this repository constructs it (the key set
of the records built in the Place Bet / bulk / CSV flows).  `team`,
`direction`, `spread` and `total` carry the values of their keys when the
relevant bet kind sets them; `settled_at`, `result` and `final_score` are
`none` until settlement.  The `final_score` string
`f"{home} {hs} - {as} {away}"` is modelled by its interpolated components. -/
structure Bet where
  id : ℤ
  user : String
  game : String
  bet_type : String
  stake : ℚ
  team : String
  spread : ℚ
  total : ℚ
  direction : String
  no_juice : Bool
  result : Option String
  settled : Bool
  profit : ℚ
  payout : ℚ
  created_at : String
  settled_at : Option String
  final_score : Option (String × ℚ × ℚ × String)
deriving DecidableEq

/-- The error exits of the `settle_bet` wrapper: missing/null scores
(line 265), unknown bet type (line 278), and re-raised core errors from
`settleBet` (lines 403-405). -/
inductive WrapErr
  | missingScore
  | invalidBetType
  | refErr (e : RefErr)
deriving DecidableEq

/-- Score extraction (bet_tracker.py lines 254-261): the `scores` list when
present, otherwise the alternative-format path whose `.get` defaults
produce `0` for records without explicit score keys. -/
def extractScores (g : ScoreRec) : Option ℚ × Option ℚ :=
  match g.scores with
  | some p => p
  | none => (some 0, some 0)

/-- `normalize_team_name` inside the spread branch of `settle_bet`
(bet_tracker.py lines 291-292): strip, lowercase, remove spaces. -/
def normName (s : String) : String :=
  ⟨((trimChars s.data).map Char.toLower).filter (fun c => !(c == ' '))⟩

/-- Identification of the backed side (bet_tracker.py lines 298-312): exact
normalized equality against home then away, then substring containment in
either direction against home then away, then the line-sign fallback. -/
def backedIsHome (user_pick home_name away_name : String) (line : ℚ) : Bool :=
  let u := normName user_pick
  let hn := normName home_name
  let an := normName away_name
  if u = hn then true
  else if u = an then false
  else if strContains hn u || strContains u hn then true
  else if strContains an u || strContains u an then false
  else decide (line < 0)

/-- The spread branch of `settle_bet` (bet_tracker.py lines 289-388):
outcome from `adjusted = backed + line` against the opponent score, then
profit computed through `float` conversion and Python `round` (lines
362-382), see `pyRound2f`. -/
def settleSpread (now : String) (bet : Bet) (g : ScoreRec)
    (home_score away_score : ℚ) : Bet :=
  let stake := bet.stake
  let line := bet.spread
  let bh := backedIsHome bet.team g.home_team g.away_team line
  let adj := (if bh then home_score else away_score) + line
  let opp := if bh then away_score else home_score
  let res := if adj > opp then "W" else if adj < opp then "L" else "P"
  let pl0 : ℚ :=
    if res = "W" then stake
    else if res = "L" then (if bet.no_juice then -stake else -(stake * (11/10)))
    else 0
  let pl := pyRound2f pl0
  { bet with
    result := some res,
    profit := pyRound2f pl,
    payout := if res = "W" then stake else if res = "P" then stake else 0,
    settled := true,
    settled_at := some now,
    final_score := some (g.home_team, home_score, away_score, g.away_team) }

/-- The record update after a successful core call in the totals branch of
`settle_bet` (bet_tracker.py lines 407-416). -/
def settleTotalsOk (now : String) (bet : Bet) (g : ScoreRec)
    (home_score away_score : ℚ) (s : SettleResult) : Bet :=
  { bet with
    result := some s.result,
    profit := s.final_pl,
    payout := if s.result = "W" then bet.stake else if s.result = "P" then bet.stake else 0,
    settled := true,
    settled_at := some now,
    final_score := some (g.home_team, home_score, away_score, g.away_team) }

/-- Shallow embedding of the `settle_bet` wrapper (bet_tracker.py lines
243-416).  The wall-clock reading `datetime.now().isoformat()` is passed
explicitly as `now`. -/
def settle_bet (now : String) (bet : Bet) (game_score : ScoreRec) : Except WrapErr Bet :=
  match extractScores game_score with
  | (some home_score, some away_score) =>
    if lowerS bet.bet_type = "spread" then
      .ok (settleSpread now bet game_score home_score away_score)
    else if lowerS bet.bet_type = "over/under" then
      match settleBet home_score away_score "totals" bet.direction bet.total bet.stake bet.no_juice with
      | .ok s => .ok (settleTotalsOk now bet game_score home_score away_score s)
      | .error e => .error (.refErr e)
    else .error .invalidBetType
  | (some _, none) => .error .missingScore
  | (none, _) => .error .missingScore

/-- Every successful `settle_bet` call returns the input bet updated only in
the six settlement fields (helper shared by the wrapper claims). -/
theorem settle_shape (n : String) (b : Bet) (g : ScoreRec) (u : Bet)
    (hok : settle_bet n b g = .ok u) :
    ∃ res pl po hs sa, u =
      { b with
        result := some res,
        profit := pl,
        payout := po,
        settled := true,
        settled_at := some n,
        final_score := some (g.home_team, hs, sa, g.away_team) } := by
  unfold settle_bet at hok
  rcases hE : extractScores g with ⟨sh, sa0⟩
  rw [hE] at hok
  rcases sh with _ | h0 <;> rcases sa0 with _ | a0 <;> simp at hok
  split_ifs at hok
  · rw [Except.ok.injEq] at hok
    subst hok
    exact ⟨_, _, _, _, _, rfl⟩
  · rcases hset : settleBet h0 a0 "totals" b.direction b.total b.stake b.no_juice with e | s <;>
      rw [hset] at hok <;> simp at hok
    subst hok
    exact ⟨_, _, _, _, _, rfl⟩

/-- C9: the resolver never mutates the input wager: the settled record
returned by `settle_bet` agrees with the input bet on every non-settlement
field, and carries the settlement fields (`settled = true`, the timestamp,
a result); the input value itself is untouched - the wrapper operates on
`bet.copy()` (bet_tracker.py lines 380-388 and 408-416). -/
theorem C9_frame (n : String) (b : Bet) (g : ScoreRec) (u : Bet)
    (hok : settle_bet n b g = .ok u) :
    u.id = b.id ∧ u.user = b.user ∧ u.game = b.game ∧ u.bet_type = b.bet_type
    ∧ u.stake = b.stake ∧ u.team = b.team ∧ u.spread = b.spread ∧ u.total = b.total
    ∧ u.direction = b.direction ∧ u.no_juice = b.no_juice ∧ u.created_at = b.created_at
    ∧ u.settled = true ∧ u.settled_at = some n ∧ (∃ r, u.result = some r) := by
  obtain ⟨res, pl, po, hs, sa, rfl⟩ := settle_shape n b g u hok
  exact ⟨rfl, rfl, rfl, rfl, rfl, rfl, rfl, rfl, rfl, rfl, rfl, rfl, rfl, res, rfl⟩

/-- Concrete unsettled totals bet used for the C9 witness. -/
def c9bet : Bet :=
  { id := 1, user := "Michael", game := "Houston vs Dallas", bet_type := "Over/Under",
    stake := 50, team := "", spread := 0, total := 40, direction := "Over",
    no_juice := false, result := none, settled := false, profit := 0, payout := 0,
    created_at := "2024-01-01T00:00:00", settled_at := none, final_score := none }

/-- Concrete completed score record used for the C9 witness. -/
def c9gs : ScoreRec := ⟨"Dallas", "Houston", true, some (some 30, some 20)⟩

/-- The settled record `settle_bet` produces for `c9bet` and `c9gs`. -/
def c9settled : Bet :=
  { c9bet with
    result := some "W",
    profit := 50,
    payout := 50,
    settled := true,
    settled_at := some "t9",
    final_score := some ("Dallas", 30, 20, "Houston") }

/-- Witness for C9 at a concrete settled bet. -/
theorem C9_frame_witness :
    c9settled.id = c9bet.id ∧ c9settled.user = c9bet.user ∧ c9settled.game = c9bet.game
    ∧ c9settled.bet_type = c9bet.bet_type ∧ c9settled.stake = c9bet.stake
    ∧ c9settled.team = c9bet.team ∧ c9settled.spread = c9bet.spread
    ∧ c9settled.total = c9bet.total ∧ c9settled.direction = c9bet.direction
    ∧ c9settled.no_juice = c9bet.no_juice ∧ c9settled.created_at = c9bet.created_at
    ∧ c9settled.settled = true ∧ c9settled.settled_at = some "t9"
    ∧ (∃ r, c9settled.result = some r) :=
  C9_frame "t9" c9bet c9gs c9settled (by decide)

/-- The only dependence of `settle_bet` on the clock reading is the
`settled_at` field (helper for C8). -/
theorem settle_now (n m : String) (b : Bet) (g : ScoreRec) :
    settle_bet n b g =
      Except.map (fun u => { u with settled_at := some n }) (settle_bet m b g) := by
  unfold settle_bet
  rcases hE : extractScores g with ⟨sh, sa0⟩
  rcases sh with _ | h0 <;> rcases sa0 with _ | a0 <;> simp [Except.map]
  split_ifs
  · simp [settleSpread]
  · rcases settleBet h0 a0 "totals" b.direction b.total b.stake b.no_juice with e | s <;>
      simp [settleTotalsOk]
  · rfl

/-- Concrete unsettled spread bet used for the C8 counterexample/witness. -/
def c8bet : Bet :=
  { id := 2, user := "Tim", game := "Houston vs Dallas", bet_type := "Spread",
    stake := 20, team := "Dallas", spread := -3, total := 0, direction := "",
    no_juice := false, result := none, settled := false, profit := 0, payout := 0,
    created_at := "2024-01-01T00:00:00", settled_at := none, final_score := none }

/-- Concrete completed score record for the C8 counterexample/witness. -/
def c8gs : ScoreRec := ⟨"Dallas", "Houston", true, some (some 30, some 20)⟩

/-- C8 counterexample: resolving the same `(wager, score_record)` pair at two
different clock readings does not yield bit-identical settled records - the
`settled_at` timestamp differs, refuting the claim that every field
including timestamps is equal. -/
theorem C8_determinism_cex :
    settle_bet "2024-01-05T10:00:00" c8bet c8gs ≠
      settle_bet "2024-01-05T10:00:01" c8bet c8gs := by decide

/-- C8 (amended): two successful resolutions of the same pair agree on every
field except `settled_at`, which records each invocation's clock reading;
with equal clock readings the settled records are bit-identical. -/
theorem C8_determinism_amended (n1 n2 : String) (b : Bet) (g : ScoreRec) (u1 u2 : Bet)
    (h1 : settle_bet n1 b g = .ok u1) (h2 : settle_bet n2 b g = .ok u2) :
    u1.settled_at = some n1 ∧ u2.settled_at = some n2
    ∧ u1 = { u2 with settled_at := some n1 }
    ∧ (n1 = n2 → u1 = u2) := by
  have e := settle_now n1 n2 b g
  rw [h1, h2] at e
  simp [Except.map] at e
  subst e
  refine ⟨rfl, ?_, rfl, ?_⟩
  · obtain ⟨res, pl, po, hs, sa, rfl⟩ := settle_shape n2 b g u2 h2
    rfl
  · intro hnn
    subst hnn
    obtain ⟨res, pl, po, hs, sa, rfl⟩ := settle_shape n1 b g u2 h2
    rfl

/-- The settled record for `c8bet` at clock reading `"ta"`. -/
def c8u1 : Bet :=
  { c8bet with
    result := some "W",
    profit := 20,
    payout := 20,
    settled := true,
    settled_at := some "ta",
    final_score := some ("Dallas", 30, 20, "Houston") }

/-- The settled record for `c8bet` at clock reading `"tb"`. -/
def c8u2 : Bet :=
  { c8bet with
    result := some "W",
    profit := 20,
    payout := 20,
    settled := true,
    settled_at := some "tb",
    final_score := some ("Dallas", 30, 20, "Houston") }

/-- Witness for C8 (amended) at concrete clock readings. -/
theorem C8_determinism_witness :
    c8u1.settled_at = some "ta" ∧ c8u2.settled_at = some "tb"
    ∧ c8u1 = { c8u2 with settled_at := some "ta" }
    ∧ ("ta" = "tb" → c8u1 = c8u2) :=
  C8_determinism_amended "ta" "tb" c8bet c8gs c8u1 c8u2 (by decide) (by decide)

/-- C4: the backed side of a spread bet is identified against the record's
team names by normalizing (trim, lowercase, strip spaces) and testing exact
equality first (home, then away), then substring containment in either
direction (home, then away), and only when neither side matches textually
does the line-sign heuristic decide (home iff `line < 0`)
(bet_tracker.py lines 289-312). -/
theorem C4_backed_side (pick homeN awayN : String) (line : ℚ) :
    (normName pick = normName homeN → backedIsHome pick homeN awayN line = true)
    ∧ (¬ normName pick = normName homeN → normName pick = normName awayN →
        backedIsHome pick homeN awayN line = false)
    ∧ (¬ normName pick = normName homeN → ¬ normName pick = normName awayN →
        (strContains (normName homeN) (normName pick)
          || strContains (normName pick) (normName homeN)) = true →
        backedIsHome pick homeN awayN line = true)
    ∧ (¬ normName pick = normName homeN → ¬ normName pick = normName awayN →
        (strContains (normName homeN) (normName pick)
          || strContains (normName pick) (normName homeN)) = false →
        (strContains (normName awayN) (normName pick)
          || strContains (normName pick) (normName awayN)) = true →
        backedIsHome pick homeN awayN line = false)
    ∧ (¬ normName pick = normName homeN → ¬ normName pick = normName awayN →
        (strContains (normName homeN) (normName pick)
          || strContains (normName pick) (normName homeN)) = false →
        (strContains (normName awayN) (normName pick)
          || strContains (normName pick) (normName awayN)) = false →
        backedIsHome pick homeN awayN line = decide (line < 0)) := by
  constructor
  · intro h1; simp only [backedIsHome]; rw [if_pos h1]
  constructor
  · intro h1 h2; simp only [backedIsHome]; rw [if_neg h1, if_pos h2]
  constructor
  · intro h1 h2 h3; simp only [backedIsHome]; rw [if_neg h1, if_neg h2]; simp [h3]
  constructor
  · intro h1 h2 h3 h4; simp only [backedIsHome]; rw [if_neg h1, if_neg h2]; simp [h3, h4]
  · intro h1 h2 h3 h4; simp only [backedIsHome]; rw [if_neg h1, if_neg h2]; simp [h3, h4]

/-- Witness for C4: the spec's example pick resolves through the substring
branch to the home side. -/
theorem C4_backed_side_witness :
    backedIsHome "Ole Miss" "Ole Miss Rebels" "Tulane Green Wave" (-7/2) = true :=
  (C4_backed_side "Ole Miss" "Ole Miss Rebels" "Tulane Green Wave" (-7/2)).2.2.1
    (by decide) (by decide) (by decide)

/-- The three-way outcome word of the spread comparison (helper for C3). -/
theorem spread_word_spec (adj opp : ℚ) :
    (opp < adj ↔ (if adj > opp then "W" else if adj < opp then "L" else "P") = "W")
    ∧ (adj < opp ↔ (if adj > opp then "W" else if adj < opp then "L" else "P") = "L")
    ∧ (adj = opp ↔ (if adj > opp then "W" else if adj < opp then "L" else "P") = "P") := by
  rcases lt_trichotomy adj opp with hlt | heq | hgt
  · have hn : ¬ opp < adj := lt_asymm hlt
    rw [if_neg hn, if_pos hlt]
    simp [hn, hlt, ne_of_lt hlt]
  · subst heq
    have hn : ¬ adj < adj := lt_irrefl adj
    rw [if_neg hn, if_neg hn]
    simp
  · have hn : ¬ adj < opp := lt_asymm hgt
    rw [if_pos hgt]
    simp [hgt, hn, ne_of_gt hgt]

/-- Concrete spread bet realising the spec's Win example
(`home_score=24, away_score=20, selection=home, line=-3.5`). -/
def c3bet : Bet :=
  { id := 3, user := "Michael", game := "Auburn vs Ole Miss", bet_type := "Spread",
    stake := 100, team := "Ole Miss", spread := -7/2, total := 0, direction := "",
    no_juice := false, result := none, settled := false, profit := 0, payout := 0,
    created_at := "2024-01-01T00:00:00", settled_at := none, final_score := none }

/-- Concrete completed score record for the C3 example. -/
def c3gs : ScoreRec := ⟨"Ole Miss", "Auburn", true, some (some 24, some 20)⟩

/-- C3: once the backed team is identified, the wrapper computes
`adjusted = backed_team_score + line` and compares it with the opponent
score: Win when strictly greater, Loss when strictly smaller, Push when
exactly equal; in particular `home=24, away=20, selection=home, line=-3.5`
settles as Win (bet_tracker.py lines 338-360, referee.py lines 109-134). -/
theorem C3_spread_rule (n : String) (b : Bet) (g : ScoreRec) (u : Bet) (h a : ℚ)
    (hty : lowerS b.bet_type = "spread")
    (hsc : g.scores = some (some h, some a))
    (hok : settle_bet n b g = .ok u) :
    (((if backedIsHome b.team g.home_team g.away_team b.spread then a else h) <
        (if backedIsHome b.team g.home_team g.away_team b.spread then h else a) + b.spread
      ↔ u.result = some "W")
    ∧ ((if backedIsHome b.team g.home_team g.away_team b.spread then h else a) + b.spread <
        (if backedIsHome b.team g.home_team g.away_team b.spread then a else h)
      ↔ u.result = some "L")
    ∧ ((if backedIsHome b.team g.home_team g.away_team b.spread then h else a) + b.spread =
        (if backedIsHome b.team g.home_team g.away_team b.spread then a else h)
      ↔ u.result = some "P"))
    ∧ Except.map Bet.result (settle_bet "t3" c3bet c3gs) = .ok (some "W") := by
  have hE : extractScores g = (some h, some a) := by simp [extractScores, hsc]
  unfold settle_bet at hok
  rw [hE] at hok
  rw [hty] at hok
  simp only [eq_self_iff_true, if_true] at hok
  rw [Except.ok.injEq] at hok
  subst hok
  constructor
  · have hw := spread_word_spec
      ((if backedIsHome b.team g.home_team g.away_team b.spread then h else a) + b.spread)
      (if backedIsHome b.team g.home_team g.away_team b.spread then a else h)
    simp only [settleSpread, Option.some.injEq]
    exact hw
  · decide

/-- The settled record `settle_bet` produces for the C3 example. -/
def c3settled : Bet :=
  { c3bet with
    result := some "W",
    profit := 100,
    payout := 100,
    settled := true,
    settled_at := some "t3",
    final_score := some ("Ole Miss", 24, 20, "Auburn") }

/-- Witness for C3 at the spec's concrete Win example. -/
theorem C3_spread_witness :
    (((if backedIsHome c3bet.team c3gs.home_team c3gs.away_team c3bet.spread
          then (20 : ℚ) else 24) <
        (if backedIsHome c3bet.team c3gs.home_team c3gs.away_team c3bet.spread
          then (24 : ℚ) else 20) + c3bet.spread
      ↔ c3settled.result = some "W")
    ∧ ((if backedIsHome c3bet.team c3gs.home_team c3gs.away_team c3bet.spread
          then (24 : ℚ) else 20) + c3bet.spread <
        (if backedIsHome c3bet.team c3gs.home_team c3gs.away_team c3bet.spread
          then (20 : ℚ) else 24)
      ↔ c3settled.result = some "L")
    ∧ ((if backedIsHome c3bet.team c3gs.home_team c3gs.away_team c3bet.spread
          then (24 : ℚ) else 20) + c3bet.spread =
        (if backedIsHome c3bet.team c3gs.home_team c3gs.away_team c3bet.spread
          then (20 : ℚ) else 24)
      ↔ c3settled.result = some "P"))
    ∧ Except.map Bet.result (settle_bet "t3" c3bet c3gs) = .ok (some "W") :=
  C3_spread_rule "t3" c3bet c3gs c3settled 24 20 (by decide) (by decide) (by decide)

/-- Concrete zero-stake spread bet exhibiting the C7 code bug. -/
def c7bet : Bet :=
  { id := 4, user := "Tim", game := "X vs Y", bet_type := "Spread",
    stake := 0, team := "X", spread := -7/2, total := 0, direction := "",
    no_juice := false, result := none, settled := false, profit := 0, payout := 0,
    created_at := "2024-01-01T00:00:00", settled_at := none, final_score := none }

/-- Concrete completed score record for the C7 failing input. -/
def c7gs : ScoreRec := ⟨"X", "Y", true, some (some 24, some 20)⟩

/-- C7 code bug: the spread branch of the `settle_bet` wrapper never checks
`stake > 0`, so a zero-stake spread bet is settled with outcome W instead
of raising the invalid-stake error - contradicting both the claim and the
core `settleBet`, which rejects the same wager (referee.py line 71,
bet_tracker.py lines 289-388). -/
theorem C7_stake_bug :
    Except.map (fun u => (u.result, u.profit, u.settled)) (settle_bet "t7" c7bet c7gs)
      = .ok (some "W", 0, true)
    ∧ settleBet 24 20 "spread" "X" (-7/2) 0 false = .error .invalidStake := by
  constructor <;> decide

/-- Concrete juiced losing spread bet with stake 0.55 for the C1
counterexample. -/
def c1bet : Bet :=
  { id := 5, user := "Michael", game := "X vs Y", bet_type := "Spread",
    stake := 11/20, team := "X", spread := -7/2, total := 0, direction := "",
    no_juice := false, result := none, settled := false, profit := 0, payout := 0,
    created_at := "2024-01-01T00:00:00", settled_at := none, final_score := none }

/-- Concrete completed score record under which `c1bet` loses. -/
def c1gs : ScoreRec := ⟨"X", "Y", true, some (some 20, some 24)⟩

/-- C1 counterexample: a losing juiced spread wager with stake 0.55 owes
`-(0.55 * 1.1) = -0.605`, which rounds half-up to `-0.61`; the wrapper's
spread branch instead computes `round(float(-0.605), 2)`, and the double
nearest `-0.605` is below it in magnitude, so Python rounds to `-0.60` -
the settled profit is `-0.60`, not the claimed half-up `-0.61`. -/
theorem C1_wrapper_round_cex :
    Except.map Bet.profit (settle_bet "t1" c1bet c1gs) = .ok (-(3/5))
    ∧ roundHalfUp2 (-((11/20 : ℚ) * (11/10))) = -(61/100)
    ∧ ((-(3/5) : ℚ) ≠ -(61/100)) := by
  refine ⟨by decide, by decide, by decide⟩
